import Mathlib

/-!
Verification of the FuzzForge pipeline-orchestration layer.

The Temporal workflow classes in `backend/toolbox/workflows/*/workflow.py`
are embedded as pure Lean functions.  Each `workflow.execute_activity`
invocation is modelled by consulting an `Env` record that fixes, per
activity name and input, whether that invocation (after the substrate's
retries) returns a value or raises; the workflow body itself is translated
branch by branch.  A run produces a `RunOutcome`: the mutated `results`
dictionary, whether the body re-raised, and the ordered trace of activity
invocations, so that properties such as "the cracking activity is never
invoked" or "cleanup is attempted exactly once" are statements about the
trace.
-/

namespace FuzzForge

/-- ASCII apostrophe, used inside message strings built by the workflows. -/
def sq : String := String.mk [Char.ofNat 39]

/-- Metadata dictionary attached to a Finding.  The orchestrator reads only
the `hashcat_mode` key (`findings[0].get("metadata", {}).get("hashcat_mode")`);
the keys written by `HashIdIdentifier.execute` that nothing reads again are
carried as typed options or opaque string pairs. -/
structure Metadata where
  hashcat_mode : Option Int := none
  john_mode : Option String := none
  extended : Option Bool := none
  pairs : List (String × String) := []
  deriving DecidableEq

/-- One security finding, the shape produced by `BaseModule.create_finding`
and passed through the orchestrator unchanged. -/
structure Finding where
  title : String
  description : String
  severity : String
  category : String
  metadata : Metadata := {}
  deriving DecidableEq

/-- Summary dictionary of a module result.  The workflows read
`total_matches` (hash identification) and `plaintext` (hash cracking) with
defaults, so each key is optional. -/
structure Summary where
  total_matches : Option Nat := none
  possible_hash_types : Option (List String) := none
  plaintext : Option String := none
  capabilities_found : Option Nat := none
  deriving DecidableEq

/-- Modelled from the spec: result dictionary of one activity, the Activity
Contract shape `{status, findings[], summary, error?}`.  The packaging class
`toolbox.modules.base.ModuleResult` is not among the source files; this
record mirrors the fields that `create_result` receives at its call sites in
`hashid_identifier.py` and `hashcat.py`, with `summary = none` when the call
site passes no summary. -/
structure ModuleResultD where
  status : String
  findings : List Finding := []
  summary : Option Summary := none
  error : Option String := none
  metadata : List (String × String) := []
  deriving DecidableEq

/-- Python `r.get("summary", {}).get("total_matches", 0)`. -/
def totalMatchesOf (r : ModuleResultD) : Nat :=
  ((r.summary.getD {}).total_matches).getD 0

/-- One entry of the `results["steps"]` list.  The step dictionaries are
heterogeneous, so every extra key is optional. -/
structure StepRec where
  step : String
  status : String
  target_path : Option String := none
  total_matches : Option Nat := none
  plaintext : Option String := none
  error : Option String := none
  capabilities_found : Option Nat := none
  secrets_found : Option Nat := none
  deriving DecidableEq

/-- Value of `results["sarif"]`: either the report produced by the SARIF
activity (opaque, tokenised as a `Nat`) or the empty dictionary `{}` stored
when report generation failed. -/
inductive SarifVal where
  | empty : SarifVal
  | report (v : Nat) : SarifVal
  deriving DecidableEq

/-- The `results` dictionary a workflow run builds.  Keys that are assigned
only on some paths are optional; `results_url` distinguishes "key absent"
(`none`) from "explicitly set to `None`" (`some none`). -/
structure RunResults where
  workflow_id : String
  target_id : String
  status : String
  steps : List StepRec
  sarif : Option SarifVal := none
  error : Option String := none
  findings : Option (List Finding) := none
  summary : Option Summary := none
  message : Option String := none
  results_url : Option (Option String) := none
  deriving DecidableEq

/-- One activity invocation, recorded with the arguments the workflow passed. -/
inductive Call where
  | getTarget (targetId runId iso : String) : Call
  | runHashid (path hash : String) : Call
  | runHashcat (path hash : String) (mode : Int) : Call
  | generateSarif (findings : List Finding) : Call
  | uploadResults (wfId : String) : Call
  | cleanupCache (path iso : String) : Call
  | runCapa (path targetFile : String) : Call
  | generateSarifBinary (findings : List Finding) : Call
  | scanWithLlm (path : String) : Call
  | llmGenerateSarif (findings : List Finding) : Call
  deriving DecidableEq

/-- Behaviour of the external activities for one run: for each activity name
and argument list, either the value it returns or the error it raises (after
the durable-execution substrate has exhausted that step's retry policy). -/
structure Env where
  get_target : String → String → String → Except String String
  run_hashid : String → String → Except String ModuleResultD
  run_hashcat : String → String → Int → Except String ModuleResultD
  generate_sarif : List Finding → Except String Nat
  upload_results : String → Except String String
  cleanup_cache : String → Except String Unit
  run_capa : String → String → Except String ModuleResultD
  generate_sarif_binary : List Finding → Except String Nat
  scan_with_llm : String → Except String ModuleResultD
  llm_generate_sarif : List Finding → Except String Nat

/-- Outcome of one workflow run: the final `results` record, whether the
body re-raised out of its `except` block, and the invocation trace. -/
structure RunOutcome where
  result : RunResults
  raised : Bool
  calls : List Call
  deriving DecidableEq

/-- The `except Exception` block shared by all three workflows: set
`status = "error"`, record the error text, append an error step, re-raise. -/
def errorExit (results : RunResults) (e : String) (calls : List Call) : RunOutcome :=
  { result := { results with
      status := "error"
      error := some e
      steps := results.steps ++ [{ step := "error", status := "failed", error := some e }] }
    raised := true
    calls := calls }

/-- Synthetic finding built in the zero-match branch of
`HashCrackingWorkflow.run`. -/
def noMatchFinding (targetHash : String) : Finding :=
  { title := "No Hash Type Identified"
    description := "The hash " ++ sq ++ targetHash ++ sq ++
      " could not be identified. No matching hash type was found."
    severity := "warning"
    category := "hash_identification"
    metadata := { pairs := [("hash_input", targetHash), ("status", "no_match")] } }

/-- Synthetic finding built in the identified-but-no-mode branch of
`HashCrackingWorkflow.run`; it reuses the identified finding's metadata. -/
def noModeFinding (f0 : Finding) : Finding :=
  { title := "No Hashcat Mode Available"
    description := "The hash type " ++ sq ++ f0.title ++ sq ++
      " was identified but has no corresponding hashcat mode."
    severity := "warning"
    category := "hash_identification"
    metadata := f0.metadata }

/-- Steps 3–6 of `HashCrackingWorkflow.run`, reached once `hashcat_mode` is
resolved (either the caller's hint or the single identified mode): run
hashcat, append its step record, generate the SARIF report (wrapped in
try/except), upload results (wrapped), clean up, then mark success. -/
def hashcatPhase (wfId targetPath targetHash : String) (mode : Int)
    (env : Env) (results : RunResults) (calls : List Call) : RunOutcome :=
  match env.run_hashcat targetPath targetHash mode with
  | .error e =>
      errorExit results e (calls ++ [.runHashcat targetPath targetHash mode])
  | .ok hc =>
      let crackStep : StepRec :=
        { step := "hash_cracking", status := hc.status,
          plaintext := some (((hc.summary.getD {}).plaintext).getD "") }
      let results := { results with steps := results.steps ++ [crackStep] }
      let calls := calls ++ [Call.runHashcat targetPath targetHash mode]
      let results :=
        match env.generate_sarif hc.findings with
        | .ok v => { results with sarif := some (.report v) }
        | .error _ => { results with sarif := some .empty }
      let calls := calls ++ [Call.generateSarif hc.findings]
      let results :=
        match env.upload_results wfId with
        | .ok url => { results with results_url := some (some url) }
        | .error _ => { results with results_url := some none }
      let calls := calls ++ [Call.uploadResults wfId]
      let calls := calls ++ [Call.cleanupCache targetPath "isolated"]
      { result := { results with
          status := "success"
          findings := some hc.findings
          summary := some (hc.summary.getD {}) }
        raised := false
        calls := calls }

/-- `HashCrackingWorkflow.run` from
`backend/toolbox/workflows/hash_cracking/workflow.py`, translated branch by
branch.  `targetHashType` is the optional hashcat-mode hint. -/
def hashCrackingRun (wfId runId targetId targetHash : String)
    (targetHashType : Option Int) (env : Env) : RunOutcome :=
  let results : RunResults :=
    { workflow_id := wfId, target_id := targetId, status := "running", steps := [] }
  match env.get_target targetId runId "isolated" with
  | .error e => errorExit results e [.getTarget targetId runId "isolated"]
  | .ok targetPath =>
    let calls : List Call := [.getTarget targetId runId "isolated"]
    let results := { results with
      steps := results.steps ++
        [{ step := "download_target", status := "success", target_path := some targetPath }] }
    match targetHashType with
    | some mode => hashcatPhase wfId targetPath targetHash mode env results calls
    | none =>
      match env.run_hashid targetPath targetHash with
      | .error e => errorExit results e (calls ++ [.runHashid targetPath targetHash])
      | .ok hres =>
        let calls := calls ++ [Call.runHashid targetPath targetHash]
        let total := totalMatchesOf hres
        let results := { results with
          steps := results.steps ++
            [{ step := "hash_identification", status := "success", total_matches := some total }] }
        let findings := hres.findings
        if total = 0 then
          let noMatch := [noMatchFinding targetHash]
          match env.generate_sarif noMatch with
          | .error e => errorExit results e (calls ++ [.generateSarif noMatch])
          | .ok v =>
            { result := { results with
                sarif := some (.report v)
                status := "aborted"
                error := some "No matching hash type found"
                findings := some noMatch }
              raised := false
              calls := calls ++ [.generateSarif noMatch, .cleanupCache targetPath "isolated"] }
        else if 1 < total then
          match env.generate_sarif hres.findings with
          | .error e => errorExit results e (calls ++ [.generateSarif hres.findings])
          | .ok v =>
            { result := { results with
                sarif := some (.report v)
                status := "needs_selection"
                message := some
                  "Multiple hash types identified. Please re-run with a specific hash_type parameter."
                findings := some findings
                summary := some (hres.summary.getD {}) }
              raised := false
              calls := calls ++ [.generateSarif hres.findings, .cleanupCache targetPath "isolated"] }
        else
          match findings.head? with
          | none =>
            errorExit results "list index out of range" calls
          | some f0 =>
            match f0.metadata.hashcat_mode with
            | none =>
              let noMode := [noModeFinding f0]
              match env.generate_sarif noMode with
              | .error e => errorExit results e (calls ++ [.generateSarif noMode])
              | .ok v =>
                { result := { results with
                    sarif := some (.report v)
                    status := "aborted"
                    error := some "No hashcat mode available for identified hash type"
                    findings := some noMode }
                  raised := false
                  calls := calls ++ [.generateSarif noMode, .cleanupCache targetPath "isolated"] }
            | some m => hashcatPhase wfId targetPath targetHash m env results calls

/-- `BinaryAnalysisWorkflow.run` from
`backend/toolbox/workflows/binary_analysis/workflow.py`: a static linear
pipeline fetch → capa → report (wrapped) → upload (wrapped) → cleanup
(wrapped) → success. -/
def binaryAnalysisRun (wfId runId targetId targetFile : String) (env : Env) : RunOutcome :=
  let results : RunResults :=
    { workflow_id := wfId, target_id := targetId, status := "running", steps := [] }
  match env.get_target targetId runId "isolated" with
  | .error e => errorExit results e [.getTarget targetId runId "isolated"]
  | .ok targetPath =>
    let calls : List Call := [.getTarget targetId runId "isolated"]
    let results := { results with
      steps := results.steps ++
        [{ step := "download_target", status := "success", target_path := some targetPath }] }
    match env.run_capa targetPath targetFile with
    | .error e => errorExit results e (calls ++ [.runCapa targetPath targetFile])
    | .ok fr =>
      let calls := calls ++ [Call.runCapa targetPath targetFile]
      let fuzzStep : StepRec :=
        { step := "fuzzing", status := "success",
          capabilities_found := some (((fr.summary.getD {}).capabilities_found).getD 0) }
      let results := { results with steps := results.steps ++ [fuzzStep] }
      let results :=
        match env.generate_sarif_binary fr.findings with
        | .ok v => { results with sarif := some (.report v) }
        | .error _ => { results with sarif := some .empty }
      let calls := calls ++ [Call.generateSarifBinary fr.findings]
      let results :=
        match env.upload_results wfId with
        | .ok url => { results with results_url := some (some url) }
        | .error _ => { results with results_url := some none }
      let calls := calls ++ [Call.uploadResults wfId]
      let calls := calls ++ [Call.cleanupCache targetPath "isolated"]
      { result := { results with
          status := "success"
          findings := some fr.findings
          summary := some (fr.summary.getD {}) }
        raised := false
        calls := calls }

/-- `LlmSecretDetectionWorkflow.run` from
`backend/toolbox/workflows/llm_secret_detection/workflow.py`: fetch (shared
workspace) → LLM scan → SARIF report (NOT wrapped in try/except) → upload
(wrapped) → cleanup (wrapped) → success.  `results["findings"]` starts as
the empty list, unlike the other workflows. -/
def llmSecretDetectionRun (wfId runId targetId : String) (env : Env) : RunOutcome :=
  let results : RunResults :=
    { workflow_id := wfId, target_id := targetId, status := "running",
      steps := [], findings := some [] }
  match env.get_target targetId runId "shared" with
  | .error e => errorExit results e [.getTarget targetId runId "shared"]
  | .ok targetPath =>
    let calls : List Call := [.getTarget targetId runId "shared"]
    let results := { results with
      steps := results.steps ++
        [{ step := "download", status := "success", target_path := some targetPath }] }
    match env.scan_with_llm targetPath with
    | .error e => errorExit results e (calls ++ [.scanWithLlm targetPath])
    | .ok scan =>
      let calls := calls ++ [Call.scanWithLlm targetPath]
      let scanStep : StepRec :=
        { step := "llm_scan", status := "success",
          secrets_found := some scan.findings.length }
      let results := { results with steps := results.steps ++ [scanStep] }
      match env.llm_generate_sarif scan.findings with
      | .error e => errorExit results e (calls ++ [.llmGenerateSarif scan.findings])
      | .ok v =>
        let calls := calls ++ [Call.llmGenerateSarif scan.findings]
        let results :=
          match env.upload_results wfId with
          | .ok url => { results with results_url := some (some url) }
          | .error _ => { results with results_url := some none }
        let calls := calls ++ [Call.uploadResults wfId]
        let calls := calls ++ [Call.cleanupCache targetPath "shared"]
        { result := { results with
            status := "success"
            findings := some scan.findings
            summary := some (scan.summary.getD {})
            sarif := some (.report v) }
          raised := false
          calls := calls }

/-- One entry of the list `hashid.identifyHash(hash)` yields: a named tuple
`HashInfo(name, hashcat, john, extended)` from the external hashid library. -/
structure HashInfo where
  name : String
  hashcat : Option Int := none
  john : Option String := none
  extended : Bool := false
  deriving DecidableEq

/-- Finding built by `HashIdIdentifier.execute` for the `idx`-th identified
hash type. -/
def hashidFinding (hashStr : String) (idx : Nat) (info : HashInfo) : Finding :=
  { title := "Possible Hash Type: " ++ info.name
    description := "The hash " ++ sq ++ hashStr ++ sq ++ " may be of type: " ++ info.name
    severity := "info"
    category := "hash_identification"
    metadata := { hashcat_mode := info.hashcat
                  john_mode := info.john
                  extended := some info.extended
                  pairs := [("hash_input", hashStr), ("identified_type", info.name),
                    ("match_index", toString idx)] } }

/-- `HashIdIdentifier.execute` from
`backend/toolbox/modules/cracking/hashid_identifier.py`.  `cfgHash` is
`config.get("hash")` (absent or empty is rejected by `validate_config`),
`workspaceOk` models `validate_workspace`, and `ids` is the list the external
`hashid.identifyHash` call produces for this hash.  Any raised exception is
caught and packaged as `create_result(findings=[], status="failed", error=…)`,
which carries no summary. -/
def hashidExecute (cfgHash : Option String) (workspaceOk : Bool)
    (ids : List HashInfo) : ModuleResultD :=
  match cfgHash with
  | none =>
      { status := "failed", findings := [],
        error := some ("" ++ sq ++ "hash" ++ sq ++ " must be provided for hash identification") }
  | some h =>
    if h = "" then
      { status := "failed", findings := [],
        error := some ("" ++ sq ++ "hash" ++ sq ++ " must be provided for hash identification") }
    else if !workspaceOk then
      { status := "failed", findings := [], error := some "workspace validation failed" }
    else
      { status := "success"
        findings := ids.mapIdx (fun idx info => hashidFinding h idx info)
        summary := some { total_matches := some ids.length
                          possible_hash_types := some (ids.map (fun i => i.name)) }
        metadata := [("hash_length", toString h.length), ("hash_input", h)] }

/-- Predicate picking out invocations of the `run_hashcat` activity. -/
def isHashcatCall : Call → Bool
  | .runHashcat _ _ _ => true
  | _ => false

/-- Predicate picking out invocations of the `run_hashid` activity. -/
def isHashidCall : Call → Bool
  | .runHashid _ _ => true
  | _ => false

/-- Predicate picking out invocations of the `cleanup_cache` activity. -/
def isCleanupCall : Call → Bool
  | .cleanupCache _ _ => true
  | _ => false

/-- An environment in which every activity succeeds: the workspace downloads
to `/ws`, identification finds exactly MD5 (hashcat mode 0), cracking
succeeds, and the auxiliary activities all return. -/
def envOk : Env :=
  { get_target := fun _ _ _ => .ok "/ws"
    run_hashid := fun _ h =>
      .ok (hashidExecute (some h) true [{ name := "MD5", hashcat := some 0 }])
    run_hashcat := fun _ _ _ =>
      .ok { status := "success", findings := [],
            summary := some { plaintext := some "password" } }
    generate_sarif := fun _ => .ok 1
    upload_results := fun _ => .ok "minio://results"
    cleanup_cache := fun _ => .ok ()
    run_capa := fun _ _ => .ok { status := "success" }
    generate_sarif_binary := fun _ => .ok 2
    scan_with_llm := fun _ => .ok { status := "success" }
    llm_generate_sarif := fun _ => .ok 3 }

example :
    (hashCrackingRun "w" "r" "t" "5f4dcc3b5aa765d61d8327deb882cf99" none envOk).result.status
      = "success" := by decide

example :
    (hashCrackingRun "w" "r" "t" "x" none
      { envOk with run_hashid := fun _ _ => .ok (hashidExecute (some "x") true []) }).result.status
      = "aborted" := by decide

example :
    (hashCrackingRun "w" "r" "t" "x" none
      { envOk with get_target := fun _ _ _ => .error "minio down" }).calls.countP isCleanupCall
      = 0 := by decide

/-- The invocation trace of the cracking phase: exactly one `run_hashcat`
call, followed (when that call returns) by the report, upload and cleanup
calls, whatever the outcomes of the wrapped report/upload steps. -/
theorem hashcatPhase_calls_eq (wfId p h : String) (m : Int) (env : Env)
    (results : RunResults) (calls : List Call) :
    (hashcatPhase wfId p h m env results calls).calls =
      calls ++ Call.runHashcat p h m ::
        (match env.run_hashcat p h m with
         | .error _ => []
         | .ok hc => [Call.generateSarif hc.findings, Call.uploadResults wfId,
             Call.cleanupCache p "isolated"]) := by
  unfold hashcatPhase
  cases hrc : env.run_hashcat p h m with
  | error e => simp [errorExit]
  | ok hc =>
      cases hs : env.generate_sarif hc.findings <;>
        cases hu : env.upload_results wfId <;> simp

/-- When the cracking activity raises, the phase takes the shared error
exit. -/
theorem hashcatPhase_err (wfId p h : String) (m : Int) (env : Env)
    (results : RunResults) (calls : List Call) (e : String)
    (hrc : env.run_hashcat p h m = .error e) :
    hashcatPhase wfId p h m env results calls =
      errorExit results e (calls ++ [.runHashcat p h m]) := by
  unfold hashcatPhase
  rw [hrc]

/-- When the cracking activity returns (whatever its internal `status`
field says), the phase finalizes the run as `success` without raising,
copying the activity's findings and summary, and records a
`hash_cracking` step whose status is the activity's own status field. -/
theorem hashcatPhase_ok (wfId p h : String) (m : Int) (env : Env)
    (results : RunResults) (calls : List Call) (hc : ModuleResultD)
    (hrc : env.run_hashcat p h m = .ok hc) :
    (hashcatPhase wfId p h m env results calls).result.status = "success" ∧
    (hashcatPhase wfId p h m env results calls).raised = false ∧
    (hashcatPhase wfId p h m env results calls).result.findings = some hc.findings ∧
    (hashcatPhase wfId p h m env results calls).result.summary = some (hc.summary.getD {}) ∧
    (hashcatPhase wfId p h m env results calls).result.steps =
      results.steps ++ [{ step := "hash_cracking", status := hc.status,
                          plaintext := some (((hc.summary.getD {}).plaintext).getD "") }] := by
  unfold hashcatPhase
  rw [hrc]
  cases hs : env.generate_sarif hc.findings <;>
    cases hu : env.upload_results wfId <;> simp [hs, hu]

/-- The cracking phase re-raises exactly when the cracking activity raises. -/
theorem hashcatPhase_raised_eq (wfId p h : String) (m : Int) (env : Env)
    (results : RunResults) (calls : List Call) :
    (hashcatPhase wfId p h m env results calls).raised =
      (match env.run_hashcat p h m with
       | .error _ => true
       | .ok _ => false) := by
  unfold hashcatPhase
  cases hrc : env.run_hashcat p h m with
  | error e => simp [errorExit]
  | ok hc =>
      cases hs : env.generate_sarif hc.findings <;>
        cases hu : env.upload_results wfId <;> simp

/-- Environment where identification succeeds with zero candidate matches. -/
def envZeroMatch : Env :=
  { envOk with run_hashid := fun _ h => .ok (hashidExecute (some h) true []) }

/-- Environment where identification returns two candidate matches. -/
def envMultiMatch : Env :=
  { envOk with
    run_hashid := fun _ h =>
      .ok (hashidExecute (some h) true
        [{ name := "MD5", hashcat := some 0 }, { name := "NTLM", hashcat := some 1000 }]) }

/-- Environment where identification returns one candidate that carries no
hashcat mode. -/
def envNoMode : Env :=
  { envOk with
    run_hashid := fun _ h =>
      .ok (hashidExecute (some h) true [{ name := "Mystery" }]) }

/-- Environment where the fetch activity raises on every attempt. -/
def envFetchFail : Env :=
  { envOk with get_target := fun _ _ _ => .error "minio down" }

/-- C1: with no hash-type hint, when identification reports zero candidate
matches the run terminates with status `aborted`, its findings are exactly
the one synthetic "No Hash Type Identified" finding of severity `warning`,
and the hashcat activity is never invoked. -/
theorem zero_matches_aborts (wfId runId targetId targetHash p : String)
    (env : Env) (hres : ModuleResultD) (v : Nat)
    (hget : env.get_target targetId runId "isolated" = .ok p)
    (hid : env.run_hashid p targetHash = .ok hres)
    (hzero : totalMatchesOf hres = 0)
    (hsar : env.generate_sarif [noMatchFinding targetHash] = .ok v) :
    (hashCrackingRun wfId runId targetId targetHash none env).result.status = "aborted" ∧
    (hashCrackingRun wfId runId targetId targetHash none env).result.findings =
      some [noMatchFinding targetHash] ∧
    (noMatchFinding targetHash).title = "No Hash Type Identified" ∧
    (noMatchFinding targetHash).severity = "warning" ∧
    (hashCrackingRun wfId runId targetId targetHash none env).calls.countP isHashcatCall = 0 ∧
    (hashCrackingRun wfId runId targetId targetHash none env).raised = false := by
  unfold hashCrackingRun
  simp only [hget, hid]
  simp [hzero, hsar, isHashcatCall]
  exact ⟨rfl, rfl⟩

/-- C1 witness: a concrete zero-match run. -/
theorem zero_matches_aborts_witness :
    (hashCrackingRun "w" "r" "t" "5f4dcc3b5aa765d61d8327deb882cf99" none envZeroMatch).result.status
        = "aborted" ∧
    (hashCrackingRun "w" "r" "t" "5f4dcc3b5aa765d61d8327deb882cf99" none envZeroMatch).result.findings
        = some [noMatchFinding "5f4dcc3b5aa765d61d8327deb882cf99"] ∧
    (noMatchFinding "5f4dcc3b5aa765d61d8327deb882cf99").title = "No Hash Type Identified" ∧
    (noMatchFinding "5f4dcc3b5aa765d61d8327deb882cf99").severity = "warning" ∧
    (hashCrackingRun "w" "r" "t" "5f4dcc3b5aa765d61d8327deb882cf99" none envZeroMatch).calls.countP
        isHashcatCall = 0 ∧
    (hashCrackingRun "w" "r" "t" "5f4dcc3b5aa765d61d8327deb882cf99" none envZeroMatch).raised
        = false :=
  zero_matches_aborts "w" "r" "t" "5f4dcc3b5aa765d61d8327deb882cf99" "/ws" envZeroMatch
    _ 1 rfl rfl rfl rfl

/-- C2: with no hint, when identification reports exactly one candidate whose
metadata carries a hashcat mode (mode `0` included), the cracking activity is
invoked exactly once, and that invocation receives exactly that mode as its
`hash_type`. -/
theorem single_match_runs_hashcat (wfId runId targetId targetHash p : String)
    (env : Env) (hres : ModuleResultD) (f : Finding) (m : Int)
    (hget : env.get_target targetId runId "isolated" = .ok p)
    (hid : env.run_hashid p targetHash = .ok hres)
    (hone : totalMatchesOf hres = 1)
    (hf : hres.findings = [f])
    (hmode : f.metadata.hashcat_mode = some m) :
    (hashCrackingRun wfId runId targetId targetHash none env).calls.countP isHashcatCall = 1 ∧
    Call.runHashcat p targetHash m ∈
      (hashCrackingRun wfId runId targetId targetHash none env).calls := by
  unfold hashCrackingRun
  simp only [hget, hid]
  simp [hone, hf, hmode, hashcatPhase_calls_eq]
  cases env.run_hashcat p targetHash m <;> simp [isHashcatCall]

/-- C2 witness: a concrete single-match run against MD5 (hashcat mode 0). -/
theorem single_match_runs_hashcat_witness :
    (hashCrackingRun "w" "r" "t" "5f4dcc3b5aa765d61d8327deb882cf99" none envOk).calls.countP
        isHashcatCall = 1 ∧
    Call.runHashcat "/ws" "5f4dcc3b5aa765d61d8327deb882cf99" 0 ∈
      (hashCrackingRun "w" "r" "t" "5f4dcc3b5aa765d61d8327deb882cf99" none envOk).calls :=
  single_match_runs_hashcat "w" "r" "t" "5f4dcc3b5aa765d61d8327deb882cf99" "/ws" envOk _
    (hashidFinding "5f4dcc3b5aa765d61d8327deb882cf99" 0 { name := "MD5", hashcat := some 0 })
    0 rfl rfl rfl rfl rfl

/-- C3: with no hint, when identification reports two or more candidate
matches the run terminates with status `needs_selection`, surfaces all the
candidate findings and a guidance message, and the hashcat activity is never
invoked. -/
theorem multiple_matches_needs_selection (wfId runId targetId targetHash p : String)
    (env : Env) (hres : ModuleResultD) (v : Nat)
    (hget : env.get_target targetId runId "isolated" = .ok p)
    (hid : env.run_hashid p targetHash = .ok hres)
    (hmany : 2 ≤ totalMatchesOf hres)
    (hsar : env.generate_sarif hres.findings = .ok v) :
    (hashCrackingRun wfId runId targetId targetHash none env).result.status
        = "needs_selection" ∧
    (hashCrackingRun wfId runId targetId targetHash none env).result.findings
        = some hres.findings ∧
    (hashCrackingRun wfId runId targetId targetHash none env).result.message
        = some "Multiple hash types identified. Please re-run with a specific hash_type parameter." ∧
    (hashCrackingRun wfId runId targetId targetHash none env).calls.countP isHashcatCall = 0 ∧
    (hashCrackingRun wfId runId targetId targetHash none env).raised = false := by
  have h0 : ¬ totalMatchesOf hres = 0 := by omega
  have h1 : 1 < totalMatchesOf hres := by omega
  unfold hashCrackingRun
  simp only [hget, hid]
  simp [h0, h1, hsar, isHashcatCall]

/-- C3 witness: a concrete run with two candidate matches. -/
theorem multiple_matches_needs_selection_witness :
    (hashCrackingRun "w" "r" "t" "5f4dcc3b5aa765d61d8327deb882cf99" none envMultiMatch).result.status
        = "needs_selection" ∧
    (hashCrackingRun "w" "r" "t" "5f4dcc3b5aa765d61d8327deb882cf99" none envMultiMatch).result.findings
        = some ((hashidExecute (some "5f4dcc3b5aa765d61d8327deb882cf99") true
            [{ name := "MD5", hashcat := some 0 },
              { name := "NTLM", hashcat := some 1000 }]).findings) ∧
    (hashCrackingRun "w" "r" "t" "5f4dcc3b5aa765d61d8327deb882cf99" none envMultiMatch).result.message
        = some "Multiple hash types identified. Please re-run with a specific hash_type parameter." ∧
    (hashCrackingRun "w" "r" "t" "5f4dcc3b5aa765d61d8327deb882cf99" none envMultiMatch).calls.countP
        isHashcatCall = 0 ∧
    (hashCrackingRun "w" "r" "t" "5f4dcc3b5aa765d61d8327deb882cf99" none envMultiMatch).raised
        = false :=
  multiple_matches_needs_selection "w" "r" "t" "5f4dcc3b5aa765d61d8327deb882cf99" "/ws"
    envMultiMatch _ 1 rfl rfl (by decide) rfl

/-- C4: with no hint, when identification reports exactly one candidate whose
metadata carries no hashcat mode, the run terminates with status `aborted`
and a single synthetic "No Hashcat Mode Available" finding, whose title
differs from the zero-match finding title, and the hashcat activity is never
invoked. -/
theorem single_match_no_mode_aborts (wfId runId targetId targetHash p : String)
    (env : Env) (hres : ModuleResultD) (f : Finding) (v : Nat)
    (hget : env.get_target targetId runId "isolated" = .ok p)
    (hid : env.run_hashid p targetHash = .ok hres)
    (hone : totalMatchesOf hres = 1)
    (hf : hres.findings = [f])
    (hmode : f.metadata.hashcat_mode = none)
    (hsar : env.generate_sarif [noModeFinding f] = .ok v) :
    (hashCrackingRun wfId runId targetId targetHash none env).result.status = "aborted" ∧
    (hashCrackingRun wfId runId targetId targetHash none env).result.findings
        = some [noModeFinding f] ∧
    (noModeFinding f).title = "No Hashcat Mode Available" ∧
    (noModeFinding f).title ≠ (noMatchFinding targetHash).title ∧
    (hashCrackingRun wfId runId targetId targetHash none env).calls.countP isHashcatCall = 0 ∧
    (hashCrackingRun wfId runId targetId targetHash none env).raised = false := by
  unfold hashCrackingRun
  simp only [hget, hid]
  simp [hone, hf, hmode, hsar, isHashcatCall]
  exact ⟨rfl, by simp [noModeFinding, noMatchFinding]⟩

/-- C4 witness: a concrete run whose single identified type has no mode. -/
theorem single_match_no_mode_aborts_witness :
    (hashCrackingRun "w" "r" "t" "5f4dcc3b5aa765d61d8327deb882cf99" none envNoMode).result.status
        = "aborted" ∧
    (hashCrackingRun "w" "r" "t" "5f4dcc3b5aa765d61d8327deb882cf99" none envNoMode).result.findings
        = some [noModeFinding
            (hashidFinding "5f4dcc3b5aa765d61d8327deb882cf99" 0 { name := "Mystery" })] ∧
    (noModeFinding (hashidFinding "5f4dcc3b5aa765d61d8327deb882cf99" 0 { name := "Mystery" })).title
        = "No Hashcat Mode Available" ∧
    (noModeFinding (hashidFinding "5f4dcc3b5aa765d61d8327deb882cf99" 0 { name := "Mystery" })).title
        ≠ (noMatchFinding "5f4dcc3b5aa765d61d8327deb882cf99").title ∧
    (hashCrackingRun "w" "r" "t" "5f4dcc3b5aa765d61d8327deb882cf99" none envNoMode).calls.countP
        isHashcatCall = 0 ∧
    (hashCrackingRun "w" "r" "t" "5f4dcc3b5aa765d61d8327deb882cf99" none envNoMode).raised
        = false :=
  single_match_no_mode_aborts "w" "r" "t" "5f4dcc3b5aa765d61d8327deb882cf99" "/ws" envNoMode _
    (hashidFinding "5f4dcc3b5aa765d61d8327deb882cf99" 0 { name := "Mystery" }) 1
    rfl rfl rfl rfl rfl rfl

/-- C5: an explicit `target_hash_type` hint always skips the identification
activity, for every hash string and every environment; when the fetch step
succeeds, the run proceeds directly to exactly one cracking invocation
carrying the hint as its mode. -/
theorem hint_skips_identification (wfId runId targetId targetHash p : String)
    (t : Int) (env : Env)
    (hget : env.get_target targetId runId "isolated" = .ok p) :
    (∀ env2 : Env,
      (hashCrackingRun wfId runId targetId targetHash (some t) env2).calls.countP
        isHashidCall = 0) ∧
    (hashCrackingRun wfId runId targetId targetHash (some t) env).calls.countP
      isHashcatCall = 1 ∧
    Call.runHashcat p targetHash t ∈
      (hashCrackingRun wfId runId targetId targetHash (some t) env).calls := by
  refine ⟨fun env2 => ?_, ?_, ?_⟩
  · unfold hashCrackingRun
    cases hg2 : env2.get_target targetId runId "isolated" with
    | error e => simp [hg2, errorExit, isHashidCall]
    | ok q =>
        simp only [hg2, hashcatPhase_calls_eq]
        cases env2.run_hashcat q targetHash t <;> simp [isHashidCall]
  · unfold hashCrackingRun
    simp only [hget, hashcatPhase_calls_eq]
    cases env.run_hashcat p targetHash t <;> simp [isHashcatCall]
  · unfold hashCrackingRun
    simp only [hget, hashcatPhase_calls_eq]
    cases env.run_hashcat p targetHash t <;> simp

/-- C5 witness: a concrete hinted run (hint 1000) against a succeeding
environment. -/
theorem hint_skips_identification_witness :
    (∀ env2 : Env,
      (hashCrackingRun "w" "r" "t" "abc" (some 1000) env2).calls.countP isHashidCall = 0) ∧
    (hashCrackingRun "w" "r" "t" "abc" (some 1000) envOk).calls.countP isHashcatCall = 1 ∧
    Call.runHashcat "/ws" "abc" 1000 ∈
      (hashCrackingRun "w" "r" "t" "abc" (some 1000) envOk).calls :=
  hint_skips_identification "w" "r" "t" "abc" "/ws" 1000 envOk rfl

/-- C6 counterexample: when the critical fetch step raises, the exception
handler sets `status = "error"` and re-raises without ever invoking the
`cleanup_cache` activity — in the hash-cracking and the binary-analysis
pipeline alike — so cleanup is NOT attempted exactly once on every exit
path. -/
theorem cleanup_skipped_on_fetch_failure :
    (hashCrackingRun "w" "r" "t" "abc" none envFetchFail).calls.countP isCleanupCall = 0 ∧
    (hashCrackingRun "w" "r" "t" "abc" none envFetchFail).result.status = "error" ∧
    (hashCrackingRun "w" "r" "t" "abc" none envFetchFail).raised = true ∧
    (binaryAnalysisRun "w" "r" "t" "a.bin" envFetchFail).calls.countP isCleanupCall = 0 ∧
    (binaryAnalysisRun "w" "r" "t" "a.bin" envFetchFail).result.status = "error" := by
  decide

/-- C6 amended: in each embedded pipeline, the cleanup activity is attempted
exactly once on every run that returns normally, and is never attempted on a
run that terminates by re-raising an exception (in particular when the fetch
step fails). -/
theorem cleanup_once_iff_normal_return (wfId runId targetId targetHash targetFile : String)
    (hint : Option Int) (env : Env) :
    (hashCrackingRun wfId runId targetId targetHash hint env).calls.countP isCleanupCall
      = cond (hashCrackingRun wfId runId targetId targetHash hint env).raised 0 1 ∧
    (binaryAnalysisRun wfId runId targetId targetFile env).calls.countP isCleanupCall
      = cond (binaryAnalysisRun wfId runId targetId targetFile env).raised 0 1 ∧
    (llmSecretDetectionRun wfId runId targetId env).calls.countP isCleanupCall
      = cond (llmSecretDetectionRun wfId runId targetId env).raised 0 1 := by
  refine ⟨?_, ?_, ?_⟩
  · unfold hashCrackingRun
    cases hg : env.get_target targetId runId "isolated" with
    | error e => simp [errorExit, isCleanupCall]
    | ok p =>
        simp only []
        cases hint with
        | some m =>
            cases hrc : env.run_hashcat p targetHash m <;>
              simp [hashcatPhase_calls_eq, hashcatPhase_raised_eq, hrc, isCleanupCall]
        | none =>
            cases hi : env.run_hashid p targetHash with
            | error e => simp [errorExit, isCleanupCall]
            | ok hres =>
                simp only []
                by_cases h0 : totalMatchesOf hres = 0
                · cases hs : env.generate_sarif [noMatchFinding targetHash] <;>
                    simp [h0, hs, errorExit, isCleanupCall]
                · by_cases h1 : 1 < totalMatchesOf hres
                  · cases hs : env.generate_sarif hres.findings <;>
                      simp [h0, h1, hs, errorExit, isCleanupCall]
                  · cases hh : hres.findings.head? with
                    | none => simp [h0, h1, hh, errorExit, isCleanupCall]
                    | some f0 =>
                        cases hm : f0.metadata.hashcat_mode with
                        | none =>
                            cases hs : env.generate_sarif [noModeFinding f0] <;>
                              simp [h0, h1, hh, hm, hs, errorExit, isCleanupCall]
                        | some m =>
                            cases hrc : env.run_hashcat p targetHash m <;>
                              simp [h0, h1, hh, hm, hrc, hashcatPhase_calls_eq,
                                hashcatPhase_raised_eq, isCleanupCall]
  · unfold binaryAnalysisRun
    cases hg : env.get_target targetId runId "isolated" with
    | error e => simp [errorExit, isCleanupCall]
    | ok p =>
        cases hc : env.run_capa p targetFile <;>
          simp [hc, errorExit, isCleanupCall]
  · unfold llmSecretDetectionRun
    cases hg : env.get_target targetId runId "shared" with
    | error e => simp [errorExit, isCleanupCall]
    | ok p =>
        cases hsc : env.scan_with_llm p with
        | error e => simp [hsc, errorExit, isCleanupCall]
        | ok scan =>
            cases hs : env.llm_generate_sarif scan.findings <;>
              simp [hsc, hs, errorExit, isCleanupCall]

/-- Environment where the LLM secret-detection SARIF activity raises while
everything else succeeds. -/
def envLlmSarifFail : Env :=
  { envOk with llm_generate_sarif := fun _ => .error "sarif generation failed" }

/-- Environment where every best-effort activity (report generation in the
hash-cracking and binary-analysis pipelines, and result upload) raises. -/
def envBestEffortFail : Env :=
  { envOk with
    generate_sarif := fun _ => .error "sarif generation failed"
    generate_sarif_binary := fun _ => .error "sarif generation failed"
    upload_results := fun _ => .error "minio upload failed" }

/-- C7 counterexample: in the LLM secret-detection pipeline the report
generation step is not wrapped in try/except, so its failure flips a run
whose critical steps (fetch and scan) all completed to `status = "error"`
instead of leaving it at `success`. -/
theorem llm_report_failure_turns_error :
    (llmSecretDetectionRun "w" "r" "t" envLlmSarifFail).result.status = "error" ∧
    (llmSecretDetectionRun "w" "r" "t" envLlmSarifFail).raised = true ∧
    ({ step := "llm_scan", status := "success", secrets_found := some 0 } : StepRec) ∈
      (llmSecretDetectionRun "w" "r" "t" envLlmSarifFail).result.steps := by
  decide

/-- C7 amended: in the hash-cracking pipeline — on its hinted path and on its
unhinted path resolved through identification — and in the binary-analysis
pipeline, a failure of report generation or result upload never moves a run
whose critical steps completed away from `success` (they are wrapped in
try/except); in the LLM secret-detection pipeline only the upload step is so
protected — its report-generation step raising turns the run into
`status = "error"`. -/
theorem best_effort_steps_wrapped
    (wfId runId targetId targetHash targetFile p : String) (m mi : Int)
    (env envU envB envL1 envL2 : Env)
    (hc hcU hresU fr sr1 sr2 : ModuleResultD) (fU : Finding) (v : Nat) (e : String)
    (hget : env.get_target targetId runId "isolated" = .ok p)
    (hhc : env.run_hashcat p targetHash m = .ok hc)
    (hgetU : envU.get_target targetId runId "isolated" = .ok p)
    (hidU : envU.run_hashid p targetHash = .ok hresU)
    (honeU : totalMatchesOf hresU = 1)
    (hfU : hresU.findings = [fU])
    (hmodeU : fU.metadata.hashcat_mode = some mi)
    (hhcU : envU.run_hashcat p targetHash mi = .ok hcU)
    (hgetB : envB.get_target targetId runId "isolated" = .ok p)
    (hcapa : envB.run_capa p targetFile = .ok fr)
    (hget1 : envL1.get_target targetId runId "shared" = .ok p)
    (hscan1 : envL1.scan_with_llm p = .ok sr1)
    (hsar1 : envL1.llm_generate_sarif sr1.findings = .ok v)
    (hget2 : envL2.get_target targetId runId "shared" = .ok p)
    (hscan2 : envL2.scan_with_llm p = .ok sr2)
    (hsar2 : envL2.llm_generate_sarif sr2.findings = .error e) :
    ((hashCrackingRun wfId runId targetId targetHash (some m) env).result.status = "success" ∧
     (hashCrackingRun wfId runId targetId targetHash (some m) env).raised = false) ∧
    ((hashCrackingRun wfId runId targetId targetHash none envU).result.status = "success" ∧
     (hashCrackingRun wfId runId targetId targetHash none envU).raised = false) ∧
    ((binaryAnalysisRun wfId runId targetId targetFile envB).result.status = "success" ∧
     (binaryAnalysisRun wfId runId targetId targetFile envB).raised = false) ∧
    ((llmSecretDetectionRun wfId runId targetId envL1).result.status = "success" ∧
     (llmSecretDetectionRun wfId runId targetId envL1).raised = false) ∧
    ((llmSecretDetectionRun wfId runId targetId envL2).result.status = "error" ∧
     (llmSecretDetectionRun wfId runId targetId envL2).raised = true) := by
  refine ⟨?_, ?_, ?_, ?_, ?_⟩
  · unfold hashCrackingRun
    simp only [hget]
    exact ⟨(hashcatPhase_ok _ _ _ _ _ _ _ _ hhc).1,
      (hashcatPhase_ok _ _ _ _ _ _ _ _ hhc).2.1⟩
  · unfold hashCrackingRun
    simp only [hgetU, hidU]
    simp [honeU, hfU, hmodeU]
    exact ⟨(hashcatPhase_ok _ _ _ _ _ _ _ _ hhcU).1,
      (hashcatPhase_ok _ _ _ _ _ _ _ _ hhcU).2.1⟩
  · unfold binaryAnalysisRun
    simp only [hgetB, hcapa]
    cases hs : envB.generate_sarif_binary fr.findings <;>
      cases hu : envB.upload_results wfId <;> simp [hs, hu]
  · unfold llmSecretDetectionRun
    simp only [hget1, hscan1, hsar1]
    cases hu : envL1.upload_results wfId <;> simp [hu]
  · unfold llmSecretDetectionRun
    simp only [hget2, hscan2, hsar2]
    simp [errorExit]

/-- C7 amended witness: concrete runs through an environment whose
best-effort steps all fail — a hinted hash-cracking run, an unhinted
hash-cracking run resolved through identification, and a binary-analysis
run, all still `success` — and through environments whose LLM SARIF step
succeeds resp. raises. -/
theorem best_effort_steps_wrapped_witness :
    ((hashCrackingRun "w" "r" "t" "abc" (some 0) envBestEffortFail).result.status = "success" ∧
     (hashCrackingRun "w" "r" "t" "abc" (some 0) envBestEffortFail).raised = false) ∧
    ((hashCrackingRun "w" "r" "t" "abc" none envBestEffortFail).result.status = "success" ∧
     (hashCrackingRun "w" "r" "t" "abc" none envBestEffortFail).raised = false) ∧
    ((binaryAnalysisRun "w" "r" "t" "a.bin" envBestEffortFail).result.status = "success" ∧
     (binaryAnalysisRun "w" "r" "t" "a.bin" envBestEffortFail).raised = false) ∧
    ((llmSecretDetectionRun "w" "r" "t" envOk).result.status = "success" ∧
     (llmSecretDetectionRun "w" "r" "t" envOk).raised = false) ∧
    ((llmSecretDetectionRun "w" "r" "t" envLlmSarifFail).result.status = "error" ∧
     (llmSecretDetectionRun "w" "r" "t" envLlmSarifFail).raised = true) :=
  best_effort_steps_wrapped "w" "r" "t" "abc" "a.bin" "/ws" 0 0
    envBestEffortFail envBestEffortFail envBestEffortFail envOk envLlmSarifFail
    _ _ _ _ _ _ (hashidFinding "abc" 0 { name := "MD5", hashcat := some 0 })
    3 "sarif generation failed"
    rfl rfl rfl rfl rfl rfl rfl rfl rfl rfl rfl rfl rfl rfl rfl rfl

/-- Environment where the cracking activity raises (e.g. a timeout after its
single permitted attempt). -/
def envCrackRaise : Env :=
  { envOk with run_hashcat := fun _ _ _ => .error "hashcat timeout" }

/-- Environment where the cracking activity returns normally but reports its
own failure through the result status, the shape `Hashcat.execute` produces
when the hashcat binary exits non-zero. -/
def envCrackFailedStatus : Env :=
  { envOk with
    run_hashcat := fun _ _ _ =>
      .ok { status := "failed", findings := [],
            error := some "Hashcat failed with exit code 255" } }

/-- C8 counterexample: when the cracking activity returns a result whose own
status field is "failed" (which `Hashcat.execute` does on any internal
error, instead of raising), the workflow records a failed `hash_cracking`
StepRecord yet still finalizes the run with `status = "success"` — so
`success` does NOT imply that every critical step succeeded. -/
theorem failed_hashcat_step_still_success :
    (hashCrackingRun "w" "r" "t" "abc" (some 0) envCrackFailedStatus).result.status
        = "success" ∧
    ({ step := "hash_cracking", status := "failed", plaintext := some "" } : StepRec) ∈
      (hashCrackingRun "w" "r" "t" "abc" (some 0) envCrackFailedStatus).result.steps ∧
    (hashCrackingRun "w" "r" "t" "abc" (some 0) envCrackFailedStatus).raised = false := by
  decide

/-- C8 amended: the run's terminal status tracks raised exceptions, not the
step's self-reported status: if the cracking activity raises, the run ends
with `status = "error"` carrying that error text; but whenever the cracking
activity returns normally, the run finalizes as `success` even when the
returned result's own status field is "failed". -/
theorem hashcat_raise_gives_error (wfId runId targetId targetHash p e : String) (m : Int)
    (env : Env)
    (hget : env.get_target targetId runId "isolated" = .ok p)
    (hrc : env.run_hashcat p targetHash m = .error e) :
    (hashCrackingRun wfId runId targetId targetHash (some m) env).result.status = "error" ∧
    (hashCrackingRun wfId runId targetId targetHash (some m) env).result.error = some e ∧
    (hashCrackingRun wfId runId targetId targetHash (some m) env).raised = true ∧
    (∀ (env2 : Env) (hc : ModuleResultD),
      env2.get_target targetId runId "isolated" = .ok p →
      env2.run_hashcat p targetHash m = .ok hc →
      (hashCrackingRun wfId runId targetId targetHash (some m) env2).result.status
        = "success") := by
  refine ⟨?_, ?_, ?_, ?_⟩
  · unfold hashCrackingRun
    simp only [hget, hashcatPhase_err _ _ _ _ _ _ _ _ hrc]
    simp [errorExit]
  · unfold hashCrackingRun
    simp only [hget, hashcatPhase_err _ _ _ _ _ _ _ _ hrc]
    simp [errorExit]
  · unfold hashCrackingRun
    simp only [hget, hashcatPhase_err _ _ _ _ _ _ _ _ hrc]
    simp [errorExit]
  · intro env2 hc hget2 hrc2
    unfold hashCrackingRun
    simp only [hget2]
    exact (hashcatPhase_ok wfId p targetHash m env2 _ _ hc hrc2).1

/-- C8 amended witness: a concrete raising-cracker run. -/
theorem hashcat_raise_gives_error_witness :
    (hashCrackingRun "w" "r" "t" "abc" (some 0) envCrackRaise).result.status = "error" ∧
    (hashCrackingRun "w" "r" "t" "abc" (some 0) envCrackRaise).result.error
        = some "hashcat timeout" ∧
    (hashCrackingRun "w" "r" "t" "abc" (some 0) envCrackRaise).raised = true ∧
    (∀ (env2 : Env) (hc : ModuleResultD),
      env2.get_target "t" "r" "isolated" = .ok "/ws" →
      env2.run_hashcat "/ws" "abc" 0 = .ok hc →
      (hashCrackingRun "w" "r" "t" "abc" (some 0) env2).result.status = "success") :=
  hashcat_raise_gives_error "w" "r" "t" "abc" "/ws" "hashcat timeout" 0 envCrackRaise rfl rfl

/-- C9: every successful result of `HashIdIdentifier.execute` has
`summary.total_matches` equal to the length of its findings list (one
finding per candidate), so in the orchestrator's single-match branch
(`total_matches = 1`) the `findings[0]` access is in bounds. -/
theorem hashid_success_total_matches (cfgHash : Option String) (wsOk : Bool)
    (ids : List HashInfo)
    (hs : (hashidExecute cfgHash wsOk ids).status = "success") :
    totalMatchesOf (hashidExecute cfgHash wsOk ids)
      = (hashidExecute cfgHash wsOk ids).findings.length ∧
    (totalMatchesOf (hashidExecute cfgHash wsOk ids) = 1 →
      (hashidExecute cfgHash wsOk ids).findings.head?.isSome = true) := by
  cases cfgHash with
  | none => simp [hashidExecute] at hs
  | some h =>
    by_cases hemp : h = ""
    · simp [hashidExecute, hemp] at hs
    · cases wsOk with
      | false => simp [hashidExecute, hemp] at hs
      | true =>
          have hrec : hashidExecute (some h) true ids =
              { status := "success"
                findings := ids.mapIdx (fun idx info => hashidFinding h idx info)
                summary := some { total_matches := some ids.length
                                  possible_hash_types := some (ids.map (fun i => i.name)) }
                metadata := [("hash_length", toString h.length), ("hash_input", h)] } := by
            simp [hashidExecute, hemp]
          rw [hrec]
          constructor
          · simp [totalMatchesOf]
          · intro h1
            simp only [totalMatchesOf, Option.getD_some] at h1
            cases ids with
            | nil => simp at h1
            | cons a t => simp

/-- C9 witness: a concrete successful identification with one candidate. -/
theorem hashid_success_total_matches_witness :
    totalMatchesOf (hashidExecute (some "5f4dcc3b5aa765d61d8327deb882cf99") true
        [{ name := "MD5", hashcat := some 0 }])
      = (hashidExecute (some "5f4dcc3b5aa765d61d8327deb882cf99") true
          [{ name := "MD5", hashcat := some 0 }]).findings.length ∧
    (totalMatchesOf (hashidExecute (some "5f4dcc3b5aa765d61d8327deb882cf99") true
        [{ name := "MD5", hashcat := some 0 }]) = 1 →
      (hashidExecute (some "5f4dcc3b5aa765d61d8327deb882cf99") true
          [{ name := "MD5", hashcat := some 0 }]).findings.head?.isSome = true) :=
  hashid_success_total_matches (some "5f4dcc3b5aa765d61d8327deb882cf99") true
    [{ name := "MD5", hashcat := some 0 }] rfl

/-- Environment where the identification activity returns the module's
internal-failure result (status "failed", no findings, no summary) instead
of raising — the shape `HashIdIdentifier.execute` produces when its body
throws, here because the config lacks the `hash` key. -/
def envIdFail : Env :=
  { envOk with run_hashid := fun _ _ => .ok (hashidExecute none true []) }

/-- Module result of an identification that succeeded with zero candidate
matches (the shape `HashIdIdentifier.execute` returns for an unknown hash). -/
def zeroMatchResult : ModuleResultD :=
  { status := "success", findings := [],
    summary := some { total_matches := some 0, possible_hash_types := some [] } }

/-- C10: when the identification activity returns a module-internal failure
result (own status "failed", zero findings, no summary) instead of raising,
the orchestrator still appends a `hash_identification` StepRecord with
status "success", branches on `total_matches = 0`, and produces exactly the
zero-match terminal outcome: the whole run outcome equals that of an
environment whose identification genuinely succeeded with zero matches. -/
theorem failed_identification_same_as_zero (wfId runId targetId targetHash p : String)
    (env : Env) (r : ModuleResultD) (v : Nat)
    (hget : env.get_target targetId runId "isolated" = .ok p)
    (hid : env.run_hashid p targetHash = .ok r)
    (hstat : r.status = "failed")
    (hf : r.findings = [])
    (hsum : r.summary = none)
    (hsar : env.generate_sarif [noMatchFinding targetHash] = .ok v) :
    ({ step := "hash_identification", status := "success", total_matches := some 0 } : StepRec) ∈
      (hashCrackingRun wfId runId targetId targetHash none env).result.steps ∧
    (hashCrackingRun wfId runId targetId targetHash none env).result.status = "aborted" ∧
    (hashCrackingRun wfId runId targetId targetHash none env).result.findings
        = some [noMatchFinding targetHash] ∧
    (hashCrackingRun wfId runId targetId targetHash none env).calls.countP isHashcatCall = 0 ∧
    hashCrackingRun wfId runId targetId targetHash none env =
      hashCrackingRun wfId runId targetId targetHash none
        { env with run_hashid := fun _ _ => .ok zeroMatchResult } := by
  have h0 : totalMatchesOf r = 0 := by simp [totalMatchesOf, hsum]
  have hz : totalMatchesOf zeroMatchResult = 0 := rfl
  unfold hashCrackingRun
  simp only [hget, hid]
  simp [h0, hz, hsar, isHashcatCall]

/-- C10 witness: a concrete run whose identification activity reports a
module-internal failure. -/
theorem failed_identification_same_as_zero_witness :
    ({ step := "hash_identification", status := "success", total_matches := some 0 } : StepRec) ∈
      (hashCrackingRun "w" "r" "t" "abc" none envIdFail).result.steps ∧
    (hashCrackingRun "w" "r" "t" "abc" none envIdFail).result.status = "aborted" ∧
    (hashCrackingRun "w" "r" "t" "abc" none envIdFail).result.findings
        = some [noMatchFinding "abc"] ∧
    (hashCrackingRun "w" "r" "t" "abc" none envIdFail).calls.countP isHashcatCall = 0 ∧
    hashCrackingRun "w" "r" "t" "abc" none envIdFail =
      hashCrackingRun "w" "r" "t" "abc" none
        { envIdFail with run_hashid := fun _ _ => .ok zeroMatchResult } :=
  failed_identification_same_as_zero "w" "r" "t" "abc" "/ws" envIdFail _ 1
    rfl rfl rfl rfl rfl rfl

end FuzzForge
